import Mathlib

/-!
Shallow embedding of the persistence and ingestion layer of the
recommendation-engine repository (src/database.py and src/preprocess.py).

The SQLite store is modelled as an explicit record of its three tables.
Cells of dynamically typed columns are `Option Val` (`none` is SQL NULL and
pandas NaN).  Python floats are modelled as rationals.  The random module
used by `_create_sample_ratings` is an explicit oracle parameter `Rng`;
theorems about randomized behaviour quantify over every oracle satisfying
`Rng.Valid`, the contract of `random.sample` and `random.uniform`.
-/

namespace RecEngine

/-- A dynamically typed SQLite / pandas scalar value. -/
inductive Val where
  | intV : Int → Val
  | ratV : ℚ → Val
  | strV : String → Val
deriving DecidableEq, Repr

/-- A cell: either NULL / NaN (`none`) or a value. -/
abbrev Cell := Option Val

/-- A row of the items table (database.py create_tables). -/
structure ItemRow where
  id : Nat
  title : Cell
  genre : Cell
  year : Cell
  description : Cell
deriving DecidableEq, Repr

/-- A row of the users table. -/
structure UserRow where
  id : Nat
  name : String
deriving DecidableEq, Repr

/-- A row of the ratings table. -/
structure RatingRow where
  userId : Nat
  itemId : Nat
  rating : ℚ
deriving DecidableEq, Repr

/-- The whole store: the three tables plus the AUTOINCREMENT counters. -/
structure DB where
  nextItemId : Nat
  items : List ItemRow
  nextUserId : Nat
  users : List UserRow
  ratings : List RatingRow
deriving DecidableEq, Repr

/-- A store right after create_tables on a fresh file (AUTOINCREMENT starts at 1). -/
def emptyDB : DB := ⟨1, [], 1, [], []⟩

/-- Storage effect of a successful INSERT INTO items. -/
def addItem (db : DB) (t g y d : Cell) : DB :=
  { db with
      items := db.items ++ [⟨db.nextItemId, t, g, y, d⟩],
      nextItemId := db.nextItemId + 1 }

/-- INSERT OR IGNORE INTO items (database.py line 152): the only declared
constraint that can fire is NOT NULL on title, and the IGNORE conflict
resolution skips the offending row. -/
def insertItemOrIgnore (db : DB) (t g y d : Cell) : DB :=
  if t = none then db else addItem db t g y d

/-- INSERT OR IGNORE INTO users (name): name is UNIQUE, a conflicting row is
skipped. -/
def insertUserOrIgnore (db : DB) (n : String) : DB :=
  if db.users.any (fun u => u.name == n) then db
  else
    { db with
        users := db.users ++ [⟨db.nextUserId, n⟩],
        nextUserId := db.nextUserId + 1 }

/-- The distinct constraint failures of the ratings table. -/
inductive SqlError where
  | checkViolation
  | fkViolation
  | pkViolation
deriving DecidableEq, Repr

/-- Plain INSERT INTO ratings under the constraints declared by
database.py create_tables: CHECK (rating >= 0 AND rating <= 5), the two
FOREIGN KEYs, and PRIMARY KEY (user_id, item_id). -/
def insertRatingChecked (db : DB) (u i : Nat) (r : ℚ) : Except SqlError DB :=
  if r < 0 ∨ 5 < r then .error .checkViolation
  else
    if db.users.any (fun x => x.id == u) then
      if db.items.any (fun x => x.id == i) then
        if db.ratings.any (fun x => x.userId == u && x.itemId == i) then
          .error .pkViolation
        else .ok { db with ratings := db.ratings ++ [⟨u, i, r⟩] }
      else .error .fkViolation
    else .error .fkViolation

/-- INSERT OR IGNORE INTO ratings (database.py line 225): any constraint
violation silently skips the row, it is never clamped or rewritten. -/
def insertRatingOrIgnore (db : DB) (u i : Nat) (r : ℚ) : DB :=
  match insertRatingChecked db u i r with
  | .ok db2 => db2
  | .error _ => db

/-- Python round(x, 1): scale by 10, round half to even, scale back. -/
def round1 (q : ℚ) : ℚ :=
  if 10 * q - (⌊10 * q⌋ : ℚ) < 1/2 then (⌊10 * q⌋ : ℚ) / 10
  else if (1 : ℚ)/2 < 10 * q - (⌊10 * q⌋ : ℚ) then ((⌊10 * q⌋ : ℚ) + 1) / 10
  else (if ⌊10 * q⌋ % 2 = 0 then (⌊10 * q⌋ : ℚ) else (⌊10 * q⌋ : ℚ) + 1) / 10

/-- Oracle for the random module: `sample u pop k` models
random.sample(pop, k) in the loop iteration for user u, and `uniform u i`
models the random.uniform(3.0, 5.0) draw for the pair (u, i). -/
structure Rng where
  sample : Nat → List Nat → Nat → List Nat
  uniform : Nat → Nat → ℚ

/-- Contract of the random module as used by the code: random.sample returns
k distinct members of the population, and random.uniform(3.0, 5.0) lies in
the closed interval [3, 5]. -/
def Rng.Valid (g : Rng) : Prop :=
  (∀ u pop k, k ≤ pop.length →
      (g.sample u pop k).length = k ∧
      (pop.Nodup → (g.sample u pop k).Nodup) ∧
      ∀ x ∈ g.sample u pop k, x ∈ pop) ∧
  (∀ u i, 3 ≤ g.uniform u i ∧ g.uniform u i ≤ 5)

/-- database.py _create_sample_users. -/
def sampleUserNames : List String :=
  [(r"Example user 1"), (r"Example user 2"), (r"Example user 3")]

def create_sample_users (db : DB) : DB :=
  sampleUserNames.foldl insertUserOrIgnore db

/-- database.py _create_sample_ratings: read back every user id and item id,
then for each user draw min(5, item count) distinct items and rate each with
round(uniform(3.0, 5.0), 1), inserted with OR IGNORE. -/
def create_sample_ratings (g : Rng) (db : DB) : DB :=
  let userIds := db.users.map (fun u => u.id)
  let itemIds := db.items.map (fun it => it.id)
  if userIds.isEmpty || itemIds.isEmpty then db
  else
    userIds.foldl
      (fun d u =>
        (g.sample u itemIds (min 5 itemIds.length)).foldl
          (fun d2 i => insertRatingOrIgnore d2 u i (round1 (g.uniform u i)))
          d)
      db

/-- The five fixed sample catalog rows of database.py _create_sample_data. -/
def sampleCatalog : List (String × String × Int × String) :=
  [(r"Naruto", r"Action, Adventure", 2002, r"Young ninja seeks to become Hokage"),
   (r"Attack on Titan", r"Action, Drama", 2013, r"Humans fight against titans"),
   (r"Death Note", r"Mystery, Thriller", 2006, r"Book that kills by writing names"),
   (r"My Hero Academia", r"Action, Superheroes", 2016,
     r"Young man without powers in a world of heroes"),
   (r"Demon Slayer", r"Action, Fantasy", 2019, r"Young Demon Hunter")]

/-- database.py _create_sample_data: plain INSERT (no OR IGNORE) of the five
fixed items — titles are non-null literals so the NOT NULL check passes —
then, the commit having succeeded, sample users and sample ratings. -/
def create_sample_data (g : Rng) (db : DB) : DB :=
  let db1 := sampleCatalog.foldl
    (fun d it =>
      addItem d (some (.strV it.1)) (some (.strV it.2.1))
        (some (.intV it.2.2.1)) (some (.strV it.2.2.2)))
    db
  let db2 := create_sample_users db1
  create_sample_ratings g db2

/-- A CSV data row as seen through pandas: a finite map from column label to
cell.  A label absent from the header is absent from the row. -/
abbrev Row := List (String × Cell)

def rowFind : Row → String → Option Cell
  | [], _ => none
  | p :: rest, k => if p.1 = k then some p.2 else rowFind rest k

/-- pandas Series.get(key, default): the stored cell when the label is
present, the default otherwise. -/
def rowGet (row : Row) (k : String) (dflt : Cell) : Cell :=
  (rowFind row k).getD dflt

/-- row.get("title", row.get("name", 'Untitled')). -/
def resolveTitle (row : Row) : Cell :=
  rowGet row (r"title") (rowGet row (r"name") (some (.strV (r"Untitled"))))

/-- row.get("genre", row.get("genres", 'Unknown')). -/
def resolveGenre (row : Row) : Cell :=
  rowGet row (r"genre") (rowGet row (r"genres") (some (.strV (r"Unknown"))))

/-- row.get("year", row.get("release_year", None)). -/
def resolveYear (row : Row) : Cell :=
  rowGet row (r"year") (rowGet row (r"release_year") none)

/-- row.get("description", row.get("synopsis", '')). -/
def resolveDescription (row : Row) : Cell :=
  rowGet row (r"description") (rowGet row (r"synopsis") (some (.strV (r""))))

/-- The body of the per-row loop of insert_initial_data. -/
def processRow (db : DB) (row : Row) : DB :=
  insertItemOrIgnore db (resolveTitle row) (resolveGenre row)
    (resolveYear row) (resolveDescription row)

/-- database.py insert_initial_data.  csv is none when the file is absent and
some rows when it was read.  On the non-empty path the batch commit is
modelled as succeeding; line 169 of the source mentions
_create_sample_ratings without calling it, so only create_sample_users runs
there. -/
def insert_initial_data (csv : Option (List Row)) (g : Rng) (db : DB) : DB :=
  match csv with
  | none => create_sample_data g db
  | some rows =>
    if rows.length = 0 then create_sample_data g db
    else
      let db1 := rows.foldl processRow db
      create_sample_users db1

/-- The connection manager state of a DatabaseManager: the current connection
handle, if any, and a counter supplying fresh handles (sqlite3.connect yields
a new connection object on every successful call). -/
structure Manager where
  connection : Option Nat
  nextHandle : Nat
deriving DecidableEq, Repr

/-- An in-memory pandas DataFrame: labelled columns of cells. -/
structure DataFrame where
  cols : List (String × List Cell)
deriving DecidableEq, Repr

/-- The environment of the preprocessing pass: whether sqlite3.connect
succeeds, whether the SELECT on items succeeds, and the item projection it
returns when it does. -/
structure World where
  canConnect : Bool
  queryOk : Bool
  itemsDF : DataFrame
deriving DecidableEq, Repr

/-- database.py connect: on success sqlite3.connect yields a fresh handle
which overwrites self.connection and is returned; on failure the
sqlite3.Error is caught, None is returned, and the state is unchanged. -/
def connect (w : World) (m : Manager) : Option Nat × Manager :=
  if w.canConnect then (some m.nextHandle, ⟨some m.nextHandle, m.nextHandle + 1⟩)
  else (none, m)

/-- database.py close: release the connection and reset it to None; closing
when already closed leaves the state as it is. -/
def close (m : Manager) : Manager := { m with connection := none }

/-- database.py _get_cursor: reconnect when there is no connection, raise
when one still cannot be established; the cursor is identified with the
connection handle. -/
def get_cursor (w : World) (m : Manager) : Except Unit (Nat × Manager) :=
  match m.connection with
  | some h => .ok (h, m)
  | none =>
    let m2 := (connect w m).2
    match m2.connection with
    | some h => .ok (h, m2)
    | none => .error ()

/-- preprocess.py load_data_from_db: connect, get a cursor, run the SELECT;
any exception is caught and an empty DataFrame is returned instead; the
finally block closes the connection on every path. -/
def load_data_from_db (w : World) (m : Manager) : DataFrame × Manager :=
  let m1 := (connect w m).2
  match get_cursor w m1 with
  | .error _ => (⟨[]⟩, close m1)
  | .ok (_, m2) =>
    if w.queryOk then (w.itemsDF, close m2)
    else (⟨[]⟩, close m2)

/-- The failure modes of clean_data: the ValueError raised on a
non-DataFrame argument, and a failing astype(int) conversion. -/
inductive CleanError where
  | notDataFrame
  | castFail
deriving DecidableEq, Repr

/-- A Python value handed to clean_data: either a DataFrame or anything
else (described by a tag). -/
inductive PyValue where
  | frame : DataFrame → PyValue
  | other : String → PyValue
deriving DecidableEq, Repr

/-- isinstance(v, pd.DataFrame). -/
def PyValue.isDataFrame : PyValue → Bool
  | .frame _ => true
  | .other _ => false

/-- Series.isnull().any(). -/
def hasNull (cells : List Cell) : Bool := cells.any (fun c => c.isNone)

/-- Series.fillna(v). -/
def fillna (d : Val) (cells : List Cell) : List Cell :=
  cells.map (fun c => some (c.getD d))

/-- Column selection by label (first matching column). -/
def findCol : List (String × List Cell) → String → Option (List Cell)
  | [], _ => none
  | c :: rest, n => if c.1 = n then some c.2 else findCol rest n

/-- Column assignment by label. -/
def setCol : List (String × List Cell) → String → List Cell → List (String × List Cell)
  | [], _, _ => []
  | c :: rest, n, cells =>
    (if c.1 = n then (c.1, cells) else c) :: setCol rest n cells

/-- Python int(): truncation toward zero. -/
def truncQ (q : ℚ) : Int := if 0 ≤ q then ⌊q⌋ else ⌈q⌉

/-- astype(int) on one cell: integers stay, floats truncate, numeric strings
parse, NaN and non-numeric strings raise. -/
def castIntCell : Cell → Except CleanError Cell
  | none => .error .castFail
  | some (.intV n) => .ok (some (.intV n))
  | some (.ratV q) => .ok (some (.intV (truncQ q)))
  | some (.strV s) =>
    match s.toInt? with
    | some n => .ok (some (.intV n))
    | none => .error .castFail

/-- astype(int) on a whole column. -/
def castIntCol : List Cell → Except CleanError (List Cell)
  | [] => .ok []
  | c :: rest =>
    match castIntCell c with
    | .error e => .error e
    | .ok c2 =>
      match castIntCol rest with
      | .error e => .error e
      | .ok r2 => .ok (c2 :: r2)

/-- One fillna step of clean_data: applied only when the column exists and
contains nulls. -/
def applyFill (n : String) (d : Val) (cols : List (String × List Cell)) :
    List (String × List Cell) :=
  match findCol cols n with
  | some cells => if hasNull cells then setCol cols n (fillna d cells) else cols
  | none => cols

/-- The year step of clean_data: fillna(0) then astype(int), applied only
when the column exists and contains nulls. -/
def applyYearFix (cols : List (String × List Cell)) :
    Except CleanError (List (String × List Cell)) :=
  match findCol cols (r"year") with
  | some cells =>
    if hasNull cells then
      match castIntCol (fillna (.intV 0) cells) with
      | .ok cells2 => .ok (setCol cols (r"year") cells2)
      | .error e => .error e
    else .ok cols
  | none => .ok cols

/-- pandas df.empty: an axis of length zero. -/
def DataFrame.isEmptyDF (df : DataFrame) : Bool :=
  df.cols.isEmpty || df.cols.all (fun c => c.2.isEmpty)

/-- preprocess.py clean_data: reject non-DataFrames, return empty frames
unchanged, otherwise fill title, genre, year (with int cast) and description
in the source order on a copy. -/
def clean_data : PyValue → Except CleanError DataFrame
  | .other _ => .error .notDataFrame
  | .frame df =>
    if df.isEmptyDF then .ok df
    else
      match applyYearFix (applyFill (r"genre") (.strV (r"Unknown"))
          (applyFill (r"title") (.strV (r"Unknown Title")) df.cols)) with
      | .error e => .error e
      | .ok c3 => .ok ⟨applyFill (r"description") (.strV (r"")) c3⟩

/-! ### Generic fold helpers -/

lemma foldl_fix {α β γ : Type _} (p : β → γ) (f : β → α → β)
    (h : ∀ d x, p (f d x) = p d) :
    ∀ (l : List α) (d : β), p (l.foldl f d) = p d := by
  intro l
  induction l with
  | nil => intro d; rfl
  | cons a t ih => intro d; rw [List.foldl_cons, ih, h]

lemma foldl_inv {α β : Type _} (P : β → Prop) (f : β → α → β)
    (h : ∀ d x, P d → P (f d x)) :
    ∀ (l : List α) (d : β), P d → P (l.foldl f d) := by
  intro l
  induction l with
  | nil => intro d hd; exact hd
  | cons a t ih => intro d hd; rw [List.foldl_cons]; exact ih _ (h d a hd)

/-! ### Basic facts about the table operations -/

lemma insertRatingChecked_ok_inv (db : DB) (u i : Nat) (r : ℚ) (db2 : DB)
    (h : insertRatingChecked db u i r = .ok db2) :
    (0 ≤ r ∧ r ≤ 5) ∧ db2 = { db with ratings := db.ratings ++ [⟨u, i, r⟩] } := by
  unfold insertRatingChecked at h
  by_cases h1 : r < 0 ∨ 5 < r
  · rw [if_pos h1] at h; cases h
  · rw [if_neg h1] at h
    rcases not_or.mp h1 with ⟨ha, hb⟩
    by_cases h2 : db.users.any (fun x => x.id == u) = true
    · rw [if_pos h2] at h
      by_cases h3 : db.items.any (fun x => x.id == i) = true
      · rw [if_pos h3] at h
        by_cases h4 : db.ratings.any (fun x => x.userId == u && x.itemId == i) = true
        · rw [if_pos h4] at h; cases h
        · rw [if_neg h4] at h
          cases h
          exact ⟨⟨not_lt.mp ha, not_lt.mp hb⟩, rfl⟩
      · rw [if_neg h3] at h; cases h
    · rw [if_neg h2] at h; cases h

lemma insertRatingOrIgnore_cases (db : DB) (u i : Nat) (r : ℚ) :
    insertRatingOrIgnore db u i r = db ∨
      ((0 ≤ r ∧ r ≤ 5) ∧
        insertRatingOrIgnore db u i r
          = { db with ratings := db.ratings ++ [⟨u, i, r⟩] }) := by
  unfold insertRatingOrIgnore
  cases h : insertRatingChecked db u i r with
  | error e => left; rfl
  | ok db2 =>
    right
    rcases insertRatingChecked_ok_inv db u i r db2 h with ⟨hb, hdb⟩
    exact ⟨hb, hdb⟩

lemma insertRatingOrIgnore_succeeds (db : DB) (u i : Nat) (r : ℚ)
    (hr0 : 0 ≤ r) (hr5 : r ≤ 5)
    (hu : db.users.any (fun x => x.id == u) = true)
    (hi : db.items.any (fun x => x.id == i) = true)
    (hp : db.ratings.any (fun x => x.userId == u && x.itemId == i) = false) :
    insertRatingOrIgnore db u i r
      = { db with ratings := db.ratings ++ [⟨u, i, r⟩] } := by
  unfold insertRatingOrIgnore insertRatingChecked
  rw [if_neg (by push_neg; exact ⟨hr0, hr5⟩), if_pos hu, if_pos hi,
    if_neg (by rw [hp]; exact Bool.false_ne_true)]

lemma insertRatingOrIgnore_users (db : DB) (u i : Nat) (r : ℚ) :
    (insertRatingOrIgnore db u i r).users = db.users := by
  rcases insertRatingOrIgnore_cases db u i r with h | ⟨-, h⟩ <;> rw [h]

lemma insertRatingOrIgnore_items (db : DB) (u i : Nat) (r : ℚ) :
    (insertRatingOrIgnore db u i r).items = db.items := by
  rcases insertRatingOrIgnore_cases db u i r with h | ⟨-, h⟩ <;> rw [h]

lemma insertUserOrIgnore_items (db : DB) (n : String) :
    (insertUserOrIgnore db n).items = db.items := by
  unfold insertUserOrIgnore; split <;> rfl

lemma insertUserOrIgnore_ratings (db : DB) (n : String) :
    (insertUserOrIgnore db n).ratings = db.ratings := by
  unfold insertUserOrIgnore; split <;> rfl

lemma create_sample_users_items (db : DB) :
    (create_sample_users db).items = db.items :=
  foldl_fix (fun d => d.items) insertUserOrIgnore insertUserOrIgnore_items
    sampleUserNames db

lemma create_sample_users_ratings (db : DB) :
    (create_sample_users db).ratings = db.ratings :=
  foldl_fix (fun d => d.ratings) insertUserOrIgnore insertUserOrIgnore_ratings
    sampleUserNames db

lemma create_sample_ratings_items (g : Rng) (db : DB) :
    (create_sample_ratings g db).items = db.items := by
  simp only [create_sample_ratings]
  split
  · rfl
  · exact foldl_fix (fun d => d.items) _
      (fun d u => foldl_fix (fun d2 => d2.items) _
        (fun d2 i => insertRatingOrIgnore_items d2 u i _) _ d) _ db

lemma create_sample_ratings_users (g : Rng) (db : DB) :
    (create_sample_ratings g db).users = db.users := by
  simp only [create_sample_ratings]
  split
  · rfl
  · exact foldl_fix (fun d => d.users) _
      (fun d u => foldl_fix (fun d2 => d2.users) _
        (fun d2 i => insertRatingOrIgnore_users d2 u i _) _ d) _ db

lemma processRow_ratings (db : DB) (row : Row) :
    (processRow db row).ratings = db.ratings := by
  unfold processRow insertItemOrIgnore
  split <;> rfl

lemma addItem_ratings (db : DB) (t g y d : Cell) :
    (addItem db t g y d).ratings = db.ratings := rfl

lemma catalog_fold_ratings (db : DB) :
    (sampleCatalog.foldl
      (fun d it =>
        addItem d (some (.strV it.1)) (some (.strV it.2.1))
          (some (.intV it.2.2.1)) (some (.strV it.2.2.2))) db).ratings
      = db.ratings :=
  foldl_fix (fun d => d.ratings) _ (fun d it => rfl) sampleCatalog db

lemma catalog_fold_items_length :
    ∀ (l : List (String × String × Int × String)) (db : DB),
      ((l.foldl
        (fun d it =>
          addItem d (some (.strV it.1)) (some (.strV it.2.1))
            (some (.intV it.2.2.1)) (some (.strV it.2.2.2))) db).items.length)
        = db.items.length + l.length := by
  intro l
  induction l with
  | nil => intro db; rfl
  | cons a t ih =>
    intro db
    rw [List.foldl_cons, ih]
    simp [addItem]
    omega

lemma create_sample_data_items_length (g : Rng) (db : DB) :
    (create_sample_data g db).items.length = db.items.length + 5 := by
  simp only [create_sample_data]
  rw [create_sample_ratings_items, create_sample_users_items,
    catalog_fold_items_length]
  rfl

/-! ### The ratings range invariant (claim C1) -/

/-- Every persisted rating lies in the closed interval [0, 5]. -/
def RatingsInRange (db : DB) : Prop :=
  ∀ x ∈ db.ratings, 0 ≤ x.rating ∧ x.rating ≤ 5

lemma ratingsInRange_empty : RatingsInRange emptyDB := by
  intro x hx
  simp [emptyDB] at hx

lemma ratingsInRange_of_eq (db db2 : DB) (h : db2.ratings = db.ratings)
    (hr : RatingsInRange db) : RatingsInRange db2 := by
  intro x hx
  rw [h] at hx
  exact hr x hx

lemma insertRatingOrIgnore_range (db : DB) (u i : Nat) (r : ℚ)
    (h : RatingsInRange db) : RatingsInRange (insertRatingOrIgnore db u i r) := by
  rcases insertRatingOrIgnore_cases db u i r with he | ⟨⟨h0, h5⟩, he⟩ <;> rw [he]
  · exact h
  · intro x hx
    simp only [List.mem_append, List.mem_singleton] at hx
    rcases hx with hx | hx
    · exact h x hx
    · rw [hx]; exact ⟨h0, h5⟩

lemma create_sample_ratings_range (g : Rng) (db : DB)
    (h : RatingsInRange db) : RatingsInRange (create_sample_ratings g db) := by
  simp only [create_sample_ratings]
  split
  · exact h
  · exact foldl_inv RatingsInRange _
      (fun d u hd => foldl_inv RatingsInRange _
        (fun d2 i hd2 => insertRatingOrIgnore_range d2 u i _ hd2) _ d hd) _ db h

lemma create_sample_data_range (g : Rng) (db : DB)
    (h : RatingsInRange db) : RatingsInRange (create_sample_data g db) := by
  simp only [create_sample_data]
  apply create_sample_ratings_range
  apply ratingsInRange_of_eq db
  · rw [create_sample_users_ratings, catalog_fold_ratings]
  · exact h

lemma insert_initial_data_eq_sample (rows : List Row) (g : Rng) (db : DB)
    (hlen : rows.length = 0) :
    insert_initial_data (some rows) g db = create_sample_data g db := by
  simp [insert_initial_data, hlen]

lemma insert_initial_data_eq_ingest (rows : List Row) (g : Rng) (db : DB)
    (hlen : rows.length ≠ 0) :
    insert_initial_data (some rows) g db
      = create_sample_users (rows.foldl processRow db) := by
  simp [insert_initial_data, hlen]

lemma insert_initial_data_range (csv : Option (List Row)) (g : Rng) (db : DB)
    (h : RatingsInRange db) : RatingsInRange (insert_initial_data csv g db) := by
  cases csv with
  | none => exact create_sample_data_range g db h
  | some rows =>
    by_cases hlen : rows.length = 0
    · rw [insert_initial_data_eq_sample rows g db hlen]
      exact create_sample_data_range g db h
    · rw [insert_initial_data_eq_ingest rows g db hlen]
      apply ratingsInRange_of_eq (rows.foldl processRow db)
      · exact create_sample_users_ratings _
      · exact ratingsInRange_of_eq db _
          (foldl_fix (fun d => d.ratings) processRow processRow_ratings rows db) h

/-- C1: every rating persisted through any insertion path of the model lies
in [0, 5]; a plain INSERT of the out-of-range value 5.5 is rejected by the
CHECK constraint with a constraint violation (no row is written, nothing is
clamped); the OR IGNORE path and the whole ingestion pipeline preserve the
invariant. -/
theorem C1_rating_range_enforced (db : DB) (h : RatingsInRange db) :
    (∀ u i r db2, insertRatingChecked db u i r = .ok db2 → RatingsInRange db2) ∧
    (∀ u i r, RatingsInRange (insertRatingOrIgnore db u i r)) ∧
    (∀ csv g, RatingsInRange (insert_initial_data csv g db)) ∧
    (∀ u i, insertRatingChecked db u i (11/2) = .error .checkViolation) := by
  refine ⟨?_, ?_, ?_, ?_⟩
  · intro u i r db2 hok
    rcases insertRatingChecked_ok_inv db u i r db2 hok with ⟨⟨h0, h5⟩, hdb⟩
    rw [hdb]
    intro x hx
    simp only [List.mem_append, List.mem_singleton] at hx
    rcases hx with hx | hx
    · exact h x hx
    · rw [hx]; exact ⟨h0, h5⟩
  · intro u i r
    exact insertRatingOrIgnore_range db u i r h
  · intro csv g
    exact insert_initial_data_range csv g db h
  · intro u i
    unfold insertRatingChecked
    rw [if_pos (Or.inr (by norm_num))]

/-- Witness for C1 at the freshly initialized store. -/
theorem C1_witness :
    RatingsInRange emptyDB ∧
    ((∀ u i r db2, insertRatingChecked emptyDB u i r = .ok db2 →
        RatingsInRange db2) ∧
      (∀ u i r, RatingsInRange (insertRatingOrIgnore emptyDB u i r)) ∧
      (∀ csv g, RatingsInRange (insert_initial_data csv g emptyDB)) ∧
      (∀ u i, insertRatingChecked emptyDB u i (11/2) = .error .checkViolation)) :=
  ⟨ratingsInRange_empty, C1_rating_range_enforced emptyDB ratingsInRange_empty⟩

/-! ### Claim C5: reconnecting is not a no-op -/

/-- C5 as stated is false: calling connect on an already connected manager
(here holding handle 0) returns a handle different from the stored one and
changes the manager state. -/
theorem C5_counterexample :
    (connect ⟨true, true, ⟨[]⟩⟩ ⟨some 0, 1⟩).1 ≠ some 0 ∧
    (connect ⟨true, true, ⟨[]⟩⟩ ⟨some 0, 1⟩).2 ≠ (⟨some 0, 1⟩ : Manager) := by
  decide

/-- C5 amended: calling connect while a connection is established (and the
store can be opened) opens a fresh connection, stores its handle, and
returns that new handle, which differs from the stored one; the manager
state changes. -/
theorem C5_reconnect_replaces_handle (w : World) (m : Manager) (h : Nat)
    (hc : m.connection = some h) (hopen : w.canConnect = true)
    (hfresh : h < m.nextHandle) :
    (connect w m).1 = some m.nextHandle ∧
    (connect w m).2.connection = some m.nextHandle ∧
    m.nextHandle ≠ h ∧
    (connect w m).2 ≠ m := by
  unfold connect
  rw [hopen]
  refine ⟨rfl, rfl, ne_of_gt hfresh, ?_⟩
  intro heq
  have hnext := congrArg Manager.nextHandle heq
  simp at hnext

/-- Witness for C5 at a manager connected with handle 0. -/
theorem C5_witness :
    (Manager.mk (some 0) 1).connection = some 0 ∧
    (World.mk true true ⟨[]⟩).canConnect = true ∧
    0 < (Manager.mk (some 0) 1).nextHandle ∧
    ((connect ⟨true, true, ⟨[]⟩⟩ ⟨some 0, 1⟩).1 = some 1 ∧
      (connect ⟨true, true, ⟨[]⟩⟩ ⟨some 0, 1⟩).2.connection = some 1 ∧
      (1 : Nat) ≠ 0 ∧
      (connect ⟨true, true, ⟨[]⟩⟩ ⟨some 0, 1⟩).2 ≠ (⟨some 0, 1⟩ : Manager)) :=
  ⟨rfl, rfl, Nat.zero_lt_one,
    C5_reconnect_replaces_handle ⟨true, true, ⟨[]⟩⟩ ⟨some 0, 1⟩ 0 rfl rfl
      Nat.zero_lt_one⟩

/-! ### Claim C6: empty source behaves as absent source -/

/-- C6: ingestion from a source that exists but has zero data rows produces
exactly the same store as ingestion when the source path does not exist. -/
theorem C6_empty_source_equals_absent (g : Rng) (db : DB) :
    insert_initial_data (some []) g db = insert_initial_data none g db := rfl

/-! ### Claim C8: non-tabular input to the cleaner -/

/-- C8: clean_data on any value that is not a DataFrame fails with the
contract-violation error, independently of the value, and returns no
result. -/
theorem C8_nonframe_rejected (v : PyValue) (h : v.isDataFrame = false) :
    clean_data v = .error .notDataFrame := by
  cases v with
  | frame df => simp [PyValue.isDataFrame] at h
  | other s => rfl

/-- Witness for C8 at a concrete non-DataFrame value. -/
theorem C8_witness :
    (PyValue.other (r"a plain python list")).isDataFrame = false ∧
    clean_data (PyValue.other (r"a plain python list")) = .error .notDataFrame :=
  ⟨rfl, C8_nonframe_rejected (PyValue.other (r"a plain python list")) rfl⟩

/-! ### Claim C10: sample catalog rows accumulate -/

/-- C10: the fallback sample-catalog creation inserts its five fixed items
with a plain INSERT, so n invocations on an initially empty store leave
5 · n item rows. -/
theorem C10_sample_items_accumulate (g : Rng) (n : Nat) :
    ((create_sample_data g)^[n] emptyDB).items.length = 5 * n := by
  induction n with
  | zero => rfl
  | succ k ih =>
    rw [Function.iterate_succ_apply', create_sample_data_items_length, ih]
    ring

/-! ### Claim C3: ratings frame property of the non-empty ingest path -/

/-- C3: after a successful ingestion from an existing, non-empty external
source (batch insert and commit succeed), the ratings table is unchanged —
only the users-synthesis step runs, the ratings-synthesis routine being
referenced but never invoked (database.py line 169). -/
theorem C3_ingest_leaves_ratings_unchanged (rows : List Row) (g : Rng) (db : DB)
    (h : rows ≠ []) :
    (insert_initial_data (some rows) g db).ratings = db.ratings := by
  rw [insert_initial_data_eq_ingest rows g db
    (fun h0 => h (List.length_eq_zero.mp h0))]
  rw [create_sample_users_ratings]
  exact foldl_fix (fun d => d.ratings) processRow processRow_ratings rows db

/-- A concrete deterministic random oracle: sample takes a prefix of the
population, uniform always returns 4. -/
def rngTake : Rng := ⟨fun _ pop k => pop.take k, fun _ _ => 4⟩

lemma rngTake_valid : Rng.Valid rngTake := by
  constructor
  · intro u pop k hk
    simp only [rngTake]
    refine ⟨?_, ?_, ?_⟩
    · rw [List.length_take]
      exact Nat.min_eq_left hk
    · intro hnd
      exact hnd.sublist (List.take_sublist k pop)
    · intro x hx
      exact List.mem_of_mem_take hx
  · intro u i
    constructor <;> norm_num [rngTake]

/-- Witness for C3 at a one-row source over the fresh store. -/
theorem C3_witness :
    ([([] : Row)] ≠ ([] : List Row)) ∧
    (insert_initial_data (some [([] : Row)]) rngTake emptyDB).ratings
      = emptyDB.ratings :=
  ⟨by simp, C3_ingest_leaves_ratings_unchanged [([] : Row)] rngTake emptyDB
    (by simp)⟩

/-! ### Claim C4: column alias resolution and defaults -/

lemma processRow_items_of_title (db : DB) (row : Row)
    (h : resolveTitle row ≠ none) :
    (processRow db row).items
      = db.items ++ [⟨db.nextItemId, resolveTitle row, resolveGenre row,
          resolveYear row, resolveDescription row⟩] := by
  unfold processRow insertItemOrIgnore
  rw [if_neg h]
  rfl

/-- C4: per-row ingestion resolves each canonical field through its ordered
alias list — the first present alias wins, and a fully missing field falls
back to the documented default ("Untitled", "Unknown", null, empty string)
— and the inserted item row carries exactly the resolved values. -/
theorem C4_alias_resolution (row : Row) (g : Rng) (db : DB)
    (h : resolveTitle row ≠ none) :
    (insert_initial_data (some [row]) g db).items
      = db.items ++ [⟨db.nextItemId, resolveTitle row, resolveGenre row,
          resolveYear row, resolveDescription row⟩] ∧
    (∀ v, rowFind row (r"title") = some v → resolveTitle row = v) ∧
    (rowFind row (r"title") = none →
      ∀ v, rowFind row (r"name") = some v → resolveTitle row = v) ∧
    (rowFind row (r"title") = none → rowFind row (r"name") = none →
      resolveTitle row = some (.strV (r"Untitled"))) ∧
    (∀ v, rowFind row (r"genre") = some v → resolveGenre row = v) ∧
    (rowFind row (r"genre") = none →
      ∀ v, rowFind row (r"genres") = some v → resolveGenre row = v) ∧
    (rowFind row (r"genre") = none → rowFind row (r"genres") = none →
      resolveGenre row = some (.strV (r"Unknown"))) ∧
    (∀ v, rowFind row (r"year") = some v → resolveYear row = v) ∧
    (rowFind row (r"year") = none →
      ∀ v, rowFind row (r"release_year") = some v → resolveYear row = v) ∧
    (rowFind row (r"year") = none → rowFind row (r"release_year") = none →
      resolveYear row = none) ∧
    (∀ v, rowFind row (r"description") = some v → resolveDescription row = v) ∧
    (rowFind row (r"description") = none →
      ∀ v, rowFind row (r"synopsis") = some v → resolveDescription row = v) ∧
    (rowFind row (r"description") = none → rowFind row (r"synopsis") = none →
      resolveDescription row = some (.strV (r""))) := by
  refine ⟨?_, ?_, ?_, ?_, ?_, ?_, ?_, ?_, ?_, ?_, ?_, ?_, ?_⟩
  · rw [insert_initial_data_eq_ingest [row] g db (by simp)]
    rw [create_sample_users_items]
    rw [List.foldl_cons, List.foldl_nil]
    exact processRow_items_of_title db row h
  · intro v hv; simp [resolveTitle, rowGet, hv]
  · intro h1 v hv; simp [resolveTitle, rowGet, h1, hv]
  · intro h1 h2; simp [resolveTitle, rowGet, h1, h2]
  · intro v hv; simp [resolveGenre, rowGet, hv]
  · intro h1 v hv; simp [resolveGenre, rowGet, h1, hv]
  · intro h1 h2; simp [resolveGenre, rowGet, h1, h2]
  · intro v hv; simp [resolveYear, rowGet, hv]
  · intro h1 v hv; simp [resolveYear, rowGet, h1, hv]
  · intro h1 h2; simp [resolveYear, rowGet, h1, h2]
  · intro v hv; simp [resolveDescription, rowGet, hv]
  · intro h1 v hv; simp [resolveDescription, rowGet, h1, hv]
  · intro h1 h2; simp [resolveDescription, rowGet, h1, h2]

/-- Witness for C4 at a data row with no recognized columns at all. -/
theorem C4_witness :
    (resolveTitle ([] : Row) ≠ none) ∧
    ((insert_initial_data (some [([] : Row)]) rngTake emptyDB).items
        = emptyDB.items ++ [⟨emptyDB.nextItemId, resolveTitle ([] : Row),
            resolveGenre ([] : Row), resolveYear ([] : Row),
            resolveDescription ([] : Row)⟩] ∧
      (∀ v, rowFind ([] : Row) (r"title") = some v → resolveTitle ([] : Row) = v) ∧
      (rowFind ([] : Row) (r"title") = none →
        ∀ v, rowFind ([] : Row) (r"name") = some v → resolveTitle ([] : Row) = v) ∧
      (rowFind ([] : Row) (r"title") = none → rowFind ([] : Row) (r"name") = none →
        resolveTitle ([] : Row) = some (.strV (r"Untitled"))) ∧
      (∀ v, rowFind ([] : Row) (r"genre") = some v → resolveGenre ([] : Row) = v) ∧
      (rowFind ([] : Row) (r"genre") = none →
        ∀ v, rowFind ([] : Row) (r"genres") = some v → resolveGenre ([] : Row) = v) ∧
      (rowFind ([] : Row) (r"genre") = none → rowFind ([] : Row) (r"genres") = none →
        resolveGenre ([] : Row) = some (.strV (r"Unknown"))) ∧
      (∀ v, rowFind ([] : Row) (r"year") = some v → resolveYear ([] : Row) = v) ∧
      (rowFind ([] : Row) (r"year") = none →
        ∀ v, rowFind ([] : Row) (r"release_year") = some v →
          resolveYear ([] : Row) = v) ∧
      (rowFind ([] : Row) (r"year") = none →
        rowFind ([] : Row) (r"release_year") = none →
        resolveYear ([] : Row) = none) ∧
      (∀ v, rowFind ([] : Row) (r"description") = some v →
        resolveDescription ([] : Row) = v) ∧
      (rowFind ([] : Row) (r"description") = none →
        ∀ v, rowFind ([] : Row) (r"synopsis") = some v →
          resolveDescription ([] : Row) = v) ∧
      (rowFind ([] : Row) (r"description") = none →
        rowFind ([] : Row) (r"synopsis") = none →
        resolveDescription ([] : Row) = some (.strV (r"")))) :=
  ⟨by decide, C4_alias_resolution ([] : Row) rngTake emptyDB (by decide)⟩

/-! ### Claim C2: the fallback sample generation -/

lemma round1_mem (q : ℚ) (h3 : 3 ≤ q) (h5 : q ≤ 5) :
    3 ≤ round1 q ∧ round1 q ≤ 5 := by
  have h30 : (30 : ℤ) ≤ ⌊(10 : ℚ) * q⌋ := by
    rw [Int.le_floor]
    push_cast
    linarith
  have h30q : (30 : ℚ) ≤ (⌊(10 : ℚ) * q⌋ : ℚ) := by exact_mod_cast h30
  have h50 : (⌊(10 : ℚ) * q⌋ : ℚ) ≤ 50 := le_trans (Int.floor_le _) (by linarith)
  unfold round1
  by_cases hA : 10 * q - (⌊10 * q⌋ : ℚ) < 1/2
  · rw [if_pos hA]
    constructor
    · rw [le_div_iff₀ (by norm_num : (0 : ℚ) < 10)]; linarith
    · rw [div_le_iff₀ (by norm_num : (0 : ℚ) < 10)]; linarith
  · rw [if_neg hA]
    by_cases hB : (1 : ℚ)/2 < 10 * q - (⌊10 * q⌋ : ℚ)
    · rw [if_pos hB]
      have h49 : (⌊(10 : ℚ) * q⌋ : ℚ) ≤ 49 := by
        have hq : (⌊(10 : ℚ) * q⌋ : ℚ) < 50 := by linarith
        have hz : ⌊(10 : ℚ) * q⌋ < 50 := by exact_mod_cast hq
        have hz2 : ⌊(10 : ℚ) * q⌋ ≤ 49 := by omega
        exact_mod_cast hz2
      constructor
      · rw [le_div_iff₀ (by norm_num : (0 : ℚ) < 10)]; linarith
      · rw [div_le_iff₀ (by norm_num : (0 : ℚ) < 10)]; linarith
    · rw [if_neg hB]
      have heq : 10 * q - (⌊10 * q⌋ : ℚ) = 1/2 :=
        le_antisymm (not_lt.mp hB) (not_lt.mp hA)
      have h49 : (⌊(10 : ℚ) * q⌋ : ℚ) ≤ 49 := by
        have hq : (⌊(10 : ℚ) * q⌋ : ℚ) < 50 := by linarith
        have hz : ⌊(10 : ℚ) * q⌋ < 50 := by exact_mod_cast hq
        have hz2 : ⌊(10 : ℚ) * q⌋ ≤ 49 := by omega
        exact_mod_cast hz2
      by_cases hC : ⌊(10 : ℚ) * q⌋ % 2 = 0
      · rw [if_pos hC]
        constructor
        · rw [le_div_iff₀ (by norm_num : (0 : ℚ) < 10)]; linarith
        · rw [div_le_iff₀ (by norm_num : (0 : ℚ) < 10)]; linarith
      · rw [if_neg hC]
        constructor
        · rw [le_div_iff₀ (by norm_num : (0 : ℚ) < 10)]; linarith
        · rw [div_le_iff₀ (by norm_num : (0 : ℚ) < 10)]; linarith

/-- The item table produced by the fallback catalog on a fresh store. -/
def itemsFive : List ItemRow :=
  [⟨1, some (.strV (r"Naruto")), some (.strV (r"Action, Adventure")),
      some (.intV 2002), some (.strV (r"Young ninja seeks to become Hokage"))⟩,
   ⟨2, some (.strV (r"Attack on Titan")), some (.strV (r"Action, Drama")),
      some (.intV 2013), some (.strV (r"Humans fight against titans"))⟩,
   ⟨3, some (.strV (r"Death Note")), some (.strV (r"Mystery, Thriller")),
      some (.intV 2006), some (.strV (r"Book that kills by writing names"))⟩,
   ⟨4, some (.strV (r"My Hero Academia")), some (.strV (r"Action, Superheroes")),
      some (.intV 2016),
      some (.strV (r"Young man without powers in a world of heroes"))⟩,
   ⟨5, some (.strV (r"Demon Slayer")), some (.strV (r"Action, Fantasy")),
      some (.intV 2019), some (.strV (r"Young Demon Hunter"))⟩]

/-- The user table produced by the fallback users on a fresh store. -/
def usersThree : List UserRow :=
  [⟨1, r"Example user 1"⟩, ⟨2, r"Example user 2"⟩, ⟨3, r"Example user 3"⟩]

/-- The store after the items and users phases of _create_sample_data on a
fresh store, before the ratings phase. -/
def dbAfterUsers : DB := ⟨6, itemsFive, 4, usersThree, []⟩

lemma sample_phase_eq :
    create_sample_users
      (sampleCatalog.foldl
        (fun d it =>
          addItem d (some (.strV it.1)) (some (.strV it.2.1))
            (some (.intV it.2.2.1)) (some (.strV it.2.2.2))) emptyDB)
      = dbAfterUsers := by decide

lemma create_sample_data_empty (g : Rng) :
    create_sample_data g emptyDB = create_sample_ratings g dbAfterUsers := by
  show create_sample_ratings g
    (create_sample_users
      (sampleCatalog.foldl
        (fun d it =>
          addItem d (some (.strV it.1)) (some (.strV it.2.1))
            (some (.intV it.2.2.1)) (some (.strV it.2.2.2))) emptyDB))
    = create_sample_ratings g dbAfterUsers
  rw [sample_phase_eq]

lemma create_sample_ratings_dbAfterUsers (g : Rng) :
    create_sample_ratings g dbAfterUsers =
      [1, 2, 3].foldl
        (fun d u =>
          (g.sample u [1, 2, 3, 4, 5] 5).foldl
            (fun d2 i => insertRatingOrIgnore d2 u i (round1 (g.uniform u i))) d)
        dbAfterUsers := rfl

lemma block_any_ne (g : Rng) (u u2 j : Nat) (chosen : List Nat) (hne : u ≠ u2) :
    ((chosen.map (fun i => RatingRow.mk u i (round1 (g.uniform u i)))).any
      (fun x => x.userId == u2 && x.itemId == j)) = false := by
  rw [List.any_eq_false]
  intro x hx
  rcases List.mem_map.mp hx with ⟨i, hi, rfl⟩
  simp [hne]

lemma block_filter_same (g : Rng) (u : Nat) (chosen : List Nat) :
    ((chosen.map (fun i => RatingRow.mk u i (round1 (g.uniform u i)))).filter
      (fun x => x.userId == u))
      = chosen.map (fun i => RatingRow.mk u i (round1 (g.uniform u i))) := by
  apply List.filter_eq_self.mpr
  intro a ha
  rcases List.mem_map.mp ha with ⟨i, hi, rfl⟩
  simp

lemma block_filter_ne (g : Rng) (u u2 : Nat) (chosen : List Nat) (hne : u ≠ u2) :
    ((chosen.map (fun i => RatingRow.mk u i (round1 (g.uniform u i)))).filter
      (fun x => x.userId == u2)) = [] := by
  rw [List.filter_eq_nil_iff]
  intro a ha
  rcases List.mem_map.mp ha with ⟨i, hi, rfl⟩
  simp [hne]

/-- Folding the per-user rating inserts over a list of distinct, present,
not-yet-rated items appends exactly one row per item and leaves the other
tables untouched. -/
lemma ratings_block (g : Rng) (u : Nat) :
    ∀ (chosen : List Nat) (d : DB),
      chosen.Nodup →
      (∀ i ∈ chosen, d.items.any (fun x => x.id == i) = true) →
      d.users.any (fun x => x.id == u) = true →
      (∀ i ∈ chosen,
        d.ratings.any (fun x => x.userId == u && x.itemId == i) = false) →
      (∀ i ∈ chosen,
        0 ≤ round1 (g.uniform u i) ∧ round1 (g.uniform u i) ≤ 5) →
      ((chosen.foldl
          (fun d2 i => insertRatingOrIgnore d2 u i (round1 (g.uniform u i))) d).ratings
          = d.ratings ++ chosen.map (fun i => RatingRow.mk u i (round1 (g.uniform u i)))) ∧
      ((chosen.foldl
          (fun d2 i => insertRatingOrIgnore d2 u i (round1 (g.uniform u i))) d).items
          = d.items) ∧
      ((chosen.foldl
          (fun d2 i => insertRatingOrIgnore d2 u i (round1 (g.uniform u i))) d).users
          = d.users) := by
  intro chosen
  induction chosen with
  | nil =>
    intro d _ _ _ _ _
    refine ⟨?_, rfl, rfl⟩
    simp
  | cons i rest ih =>
    intro d hnodup hitems hu hfresh hrange
    have hmem : i ∈ i :: rest := List.mem_cons_self i rest
    have hnd := List.nodup_cons.mp hnodup
    have hfresh2 : ∀ j ∈ rest,
        ((d.ratings ++ [RatingRow.mk u i (round1 (g.uniform u i))]).any
          (fun x => x.userId == u && x.itemId == j)) = false := by
      intro j hj
      rw [List.any_append, hfresh j (List.mem_cons_of_mem i hj)]
      have hij : i ≠ j := fun he => hnd.1 (he ▸ hj)
      simp [hij]
    rcases ih { d with ratings := d.ratings ++ [RatingRow.mk u i (round1 (g.uniform u i))] }
        hnd.2 (fun j hj => hitems j (List.mem_cons_of_mem i hj)) hu hfresh2
        (fun j hj => hrange j (List.mem_cons_of_mem i hj)) with ⟨hr, hi2, hu2⟩
    rw [List.foldl_cons,
      insertRatingOrIgnore_succeeds d u i (round1 (g.uniform u i))
        (hrange i hmem).1 (hrange i hmem).2 hu (hitems i hmem) (hfresh i hmem)]
    refine ⟨?_, ?_, ?_⟩
    · rw [hr]
      simp [List.append_assoc]
    · rw [hi2]
    · rw [hu2]

/-- C2: on a fresh store with no external source, ingestion produces exactly
the five fixed sample catalog items and the three fixed sample users, and
every user carries between 1 and 5 ratings (in fact exactly five, one per
drawn item), each rating lying in [3.0, 5.0]. -/
theorem C2_fallback_ingestion (g : Rng) (hg : Rng.Valid g) :
    (insert_initial_data none g emptyDB).items = itemsFive ∧
    (insert_initial_data none g emptyDB).items.length = 5 ∧
    (insert_initial_data none g emptyDB).users = usersThree ∧
    (insert_initial_data none g emptyDB).users.length = 3 ∧
    (∀ u ∈ (insert_initial_data none g emptyDB).users,
      1 ≤ ((insert_initial_data none g emptyDB).ratings.filter
            (fun x => x.userId == u.id)).length ∧
      ((insert_initial_data none g emptyDB).ratings.filter
            (fun x => x.userId == u.id)).length ≤ 5) ∧
    (∀ rr ∈ (insert_initial_data none g emptyDB).ratings,
      3 ≤ rr.rating ∧ rr.rating ≤ 5) := by
  obtain ⟨hs, hunif⟩ := hg
  have hpop : ([1, 2, 3, 4, 5] : List Nat).Nodup := by decide
  have hlen : (5 : Nat) ≤ ([1, 2, 3, 4, 5] : List Nat).length := by decide
  have hch : ∀ u : Nat,
      (g.sample u [1, 2, 3, 4, 5] 5).length = 5 ∧
      (g.sample u [1, 2, 3, 4, 5] 5).Nodup ∧
      ∀ x ∈ g.sample u [1, 2, 3, 4, 5] 5, x ∈ ([1, 2, 3, 4, 5] : List Nat) := by
    intro u
    rcases hs u [1, 2, 3, 4, 5] 5 hlen with ⟨h1, h2, h3⟩
    exact ⟨h1, h2 hpop, h3⟩
  have hrange : ∀ u i : Nat,
      3 ≤ round1 (g.uniform u i) ∧ round1 (g.uniform u i) ≤ 5 :=
    fun u i => round1_mem (g.uniform u i) (hunif u i).1 (hunif u i).2
  have hrange05 : ∀ u i : Nat,
      0 ≤ round1 (g.uniform u i) ∧ round1 (g.uniform u i) ≤ 5 :=
    fun u i => ⟨le_trans (by norm_num) (hrange u i).1, (hrange u i).2⟩
  have hitems_any : ∀ j ∈ ([1, 2, 3, 4, 5] : List Nat),
      dbAfterUsers.items.any (fun x => x.id == j) = true := by decide
  have hu1 : dbAfterUsers.users.any (fun x => x.id == 1) = true := by decide
  have hu2 : dbAfterUsers.users.any (fun x => x.id == 2) = true := by decide
  have hu3 : dbAfterUsers.users.any (fun x => x.id == 3) = true := by decide
  have B1 := ratings_block g 1 (g.sample 1 [1, 2, 3, 4, 5] 5) dbAfterUsers
    (hch 1).2.1
    (fun j hj => hitems_any j ((hch 1).2.2 j hj))
    hu1
    (fun j hj => rfl)
    (fun j hj => hrange05 1 j)
  have B2 := ratings_block g 2 (g.sample 2 [1, 2, 3, 4, 5] 5)
    (List.foldl (fun d2 i => insertRatingOrIgnore d2 1 i (round1 (g.uniform 1 i))) dbAfterUsers (g.sample 1 [1, 2, 3, 4, 5] 5))
    (hch 2).2.1
    (by
      intro j hj
      rw [B1.2.1]
      exact hitems_any j ((hch 2).2.2 j hj))
    (by
      rw [B1.2.2]
      exact hu2)
    (by
      intro j hj
      rw [B1.1, List.any_append, block_any_ne g 1 2 j _ (by decide)]
      rfl)
    (fun j hj => hrange05 2 j)
  have B3 := ratings_block g 3 (g.sample 3 [1, 2, 3, 4, 5] 5)
    (List.foldl (fun d2 i => insertRatingOrIgnore d2 2 i (round1 (g.uniform 2 i))) (List.foldl (fun d2 i => insertRatingOrIgnore d2 1 i (round1 (g.uniform 1 i))) dbAfterUsers (g.sample 1 [1, 2, 3, 4, 5] 5)) (g.sample 2 [1, 2, 3, 4, 5] 5))
    (hch 3).2.1
    (by
      intro j hj
      rw [B2.2.1, B1.2.1]
      exact hitems_any j ((hch 3).2.2 j hj))
    (by
      rw [B2.2.2, B1.2.2]
      exact hu3)
    (by
      intro j hj
      rw [B2.1, B1.1, List.any_append, List.any_append,
        block_any_ne g 1 3 j _ (by decide), block_any_ne g 2 3 j _ (by decide)]
      rfl)
    (fun j hj => hrange05 3 j)
  have hnest : insert_initial_data none g emptyDB
      = List.foldl (fun d2 i => insertRatingOrIgnore d2 3 i (round1 (g.uniform 3 i))) (List.foldl (fun d2 i => insertRatingOrIgnore d2 2 i (round1 (g.uniform 2 i))) (List.foldl (fun d2 i => insertRatingOrIgnore d2 1 i (round1 (g.uniform 1 i))) dbAfterUsers (g.sample 1 [1, 2, 3, 4, 5] 5)) (g.sample 2 [1, 2, 3, 4, 5] 5)) (g.sample 3 [1, 2, 3, 4, 5] 5) := by
    show create_sample_data g emptyDB = _
    rw [create_sample_data_empty, create_sample_ratings_dbAfterUsers]
    simp only [List.foldl_cons, List.foldl_nil]
  have hitems : (insert_initial_data none g emptyDB).items = dbAfterUsers.items := by
    rw [hnest, B3.2.1, B2.2.1, B1.2.1]
  have husers : (insert_initial_data none g emptyDB).users = dbAfterUsers.users := by
    rw [hnest, B3.2.2, B2.2.2, B1.2.2]
  have hrat : (insert_initial_data none g emptyDB).ratings
      = ((dbAfterUsers.ratings ++ List.map (fun i => RatingRow.mk 1 i (round1 (g.uniform 1 i))) (g.sample 1 [1, 2, 3, 4, 5] 5)) ++ List.map (fun i => RatingRow.mk 2 i (round1 (g.uniform 2 i))) (g.sample 2 [1, 2, 3, 4, 5] 5)) ++ List.map (fun i => RatingRow.mk 3 i (round1 (g.uniform 3 i))) (g.sample 3 [1, 2, 3, 4, 5] 5) := by
    rw [hnest, B3.1, B2.1, B1.1]
  have hflen : ∀ w : Nat, w = 1 ∨ w = 2 ∨ w = 3 →
      (((insert_initial_data none g emptyDB).ratings.filter
        (fun x => x.userId == w)).length) = 5 := by
    intro w hw
    rw [hrat, List.filter_append, List.filter_append, List.filter_append]
    rcases hw with rfl | rfl | rfl
    · rw [block_filter_same g 1, block_filter_ne g 2 1 _ (by decide),
        block_filter_ne g 3 1 _ (by decide)]
      simp [dbAfterUsers, (hch 1).1]
    · rw [block_filter_same g 2, block_filter_ne g 1 2 _ (by decide),
        block_filter_ne g 3 2 _ (by decide)]
      simp [dbAfterUsers, (hch 2).1]
    · rw [block_filter_same g 3, block_filter_ne g 1 3 _ (by decide),
        block_filter_ne g 2 3 _ (by decide)]
      simp [dbAfterUsers, (hch 3).1]
  refine ⟨by rw [hitems]; rfl, by rw [hitems]; rfl, by rw [husers]; rfl,
    by rw [husers]; rfl, ?_, ?_⟩
  · intro u hu
    have hids : u.id = 1 ∨ u.id = 2 ∨ u.id = 3 := by
      rw [husers] at hu
      have hu3m : u ∈ usersThree := hu
      have hcases : u = (⟨1, r"Example user 1"⟩ : UserRow) ∨
          u = (⟨2, r"Example user 2"⟩ : UserRow) ∨
          u = (⟨3, r"Example user 3"⟩ : UserRow) := by
        simpa [usersThree] using hu3m
      rcases hcases with rfl | rfl | rfl
      · exact Or.inl rfl
      · exact Or.inr (Or.inl rfl)
      · exact Or.inr (Or.inr rfl)
    rcases hids with h | h | h
    · rw [h, hflen 1 (Or.inl rfl)]
      omega
    · rw [h, hflen 2 (Or.inr (Or.inl rfl))]
      omega
    · rw [h, hflen 3 (Or.inr (Or.inr rfl))]
      omega
  · intro rr hrr
    rw [hrat] at hrr
    rcases List.mem_append.mp hrr with hrr | hrr
    · rcases List.mem_append.mp hrr with hrr | hrr
      · rcases List.mem_append.mp hrr with hrr | hrr
        · simp [dbAfterUsers] at hrr
        · rcases List.mem_map.mp hrr with ⟨i, hi, rfl⟩
          exact hrange 1 i
      · rcases List.mem_map.mp hrr with ⟨i, hi, rfl⟩
        exact hrange 2 i
    · rcases List.mem_map.mp hrr with ⟨i, hi, rfl⟩
      exact hrange 3 i

/-- Witness for C2 at the deterministic prefix-sampling oracle. -/
theorem C2_witness :
    Rng.Valid rngTake ∧
    ((insert_initial_data none rngTake emptyDB).items = itemsFive ∧
      (insert_initial_data none rngTake emptyDB).items.length = 5 ∧
      (insert_initial_data none rngTake emptyDB).users = usersThree ∧
      (insert_initial_data none rngTake emptyDB).users.length = 3 ∧
      (∀ u ∈ (insert_initial_data none rngTake emptyDB).users,
        1 ≤ ((insert_initial_data none rngTake emptyDB).ratings.filter
              (fun x => x.userId == u.id)).length ∧
        ((insert_initial_data none rngTake emptyDB).ratings.filter
              (fun x => x.userId == u.id)).length ≤ 5) ∧
      (∀ rr ∈ (insert_initial_data none rngTake emptyDB).ratings,
        3 ≤ rr.rating ∧ rr.rating ≤ 5)) :=
  ⟨rngTake_valid, C2_fallback_ingestion rngTake rngTake_valid⟩

/-! ### Claim C7: cleaning is idempotent -/

lemma findCol_cons (c : String × List Cell) (rest : List (String × List Cell))
    (n : String) :
    findCol (c :: rest) n = if c.1 = n then some c.2 else findCol rest n := rfl

lemma setCol_cons (c : String × List Cell) (rest : List (String × List Cell))
    (n : String) (cells : List Cell) :
    setCol (c :: rest) n cells
      = (if c.1 = n then (c.1, cells) else c) :: setCol rest n cells := rfl

lemma findCol_setCol_self (cols : List (String × List Cell)) (n : String)
    (cells old : List Cell) (h : findCol cols n = some old) :
    findCol (setCol cols n cells) n = some cells := by
  induction cols with
  | nil => cases h
  | cons c rest ih =>
    rw [findCol_cons] at h
    rw [setCol_cons]
    by_cases hc : c.1 = n
    · rw [if_pos hc, findCol_cons, if_pos hc]
    · rw [if_neg hc] at h
      rw [if_neg hc, findCol_cons, if_neg hc]
      exact ih h

lemma findCol_setCol_other (cols : List (String × List Cell)) (n m : String)
    (cells : List Cell) (hnm : m ≠ n) :
    findCol (setCol cols n cells) m = findCol cols m := by
  induction cols with
  | nil => rfl
  | cons c rest ih =>
    rw [setCol_cons]
    by_cases hc : c.1 = n
    · have hcm : ¬ c.1 = m := fun he => hnm (he ▸ hc)
      rw [if_pos hc, findCol_cons, findCol_cons, if_neg hcm]
      show findCol (setCol rest n cells) m = _
      rw [if_neg hcm]
      exact ih
    · rw [if_neg hc, findCol_cons, findCol_cons]
      by_cases hcm : c.1 = m
      · rw [if_pos hcm, if_pos hcm]
      · rw [if_neg hcm, if_neg hcm]
        exact ih

lemma findCol_mem (cols : List (String × List Cell)) (n : String)
    (cells : List Cell) (h : findCol cols n = some cells) :
    ∃ p ∈ cols, p.2 = cells := by
  induction cols with
  | nil => cases h
  | cons c rest ih =>
    rw [findCol_cons] at h
    by_cases hc : c.1 = n
    · rw [if_pos hc] at h
      cases h
      exact ⟨c, List.mem_cons_self c rest, rfl⟩
    · rw [if_neg hc] at h
      rcases ih h with ⟨p, hp, he⟩
      exact ⟨p, List.mem_cons_of_mem c hp, he⟩

lemma hasNull_fillna (d : Val) (cells : List Cell) :
    hasNull (fillna d cells) = false := by
  rw [hasNull, List.any_eq_false]
  intro x hx
  rcases List.mem_map.mp hx with ⟨c, hc, rfl⟩
  simp

lemma applyFill_eq_of_none (n : String) (d : Val)
    (cols : List (String × List Cell)) (hf : findCol cols n = none) :
    applyFill n d cols = cols := by
  unfold applyFill
  rw [hf]

lemma applyFill_eq_of_found (n : String) (d : Val)
    (cols : List (String × List Cell)) (old : List Cell)
    (hf : findCol cols n = some old) :
    applyFill n d cols
      = if hasNull old then setCol cols n (fillna d old) else cols := by
  unfold applyFill
  rw [hf]

lemma applyFill_self_clean (n : String) (d : Val)
    (cols : List (String × List Cell)) :
    ∀ cells, findCol (applyFill n d cols) n = some cells →
      hasNull cells = false := by
  intro cells h
  cases hf : findCol cols n with
  | none =>
    rw [applyFill_eq_of_none n d cols hf, hf] at h
    cases h
  | some old =>
    rw [applyFill_eq_of_found n d cols old hf] at h
    by_cases hn : hasNull old = true
    · rw [if_pos hn, findCol_setCol_self cols n (fillna d old) old hf] at h
      cases h
      exact hasNull_fillna d old
    · rw [if_neg hn, hf] at h
      cases h
      exact Bool.eq_false_iff.mpr hn

lemma applyFill_other (n m : String) (d : Val)
    (cols : List (String × List Cell)) (hnm : m ≠ n) :
    findCol (applyFill n d cols) m = findCol cols m := by
  cases hf : findCol cols n with
  | none => rw [applyFill_eq_of_none n d cols hf]
  | some old =>
    rw [applyFill_eq_of_found n d cols old hf]
    by_cases hn : hasNull old = true
    · rw [if_pos hn]
      exact findCol_setCol_other cols n m _ hnm
    · rw [if_neg hn]

lemma applyFill_id (n : String) (d : Val) (cols : List (String × List Cell))
    (h : ∀ cells, findCol cols n = some cells → hasNull cells = false) :
    applyFill n d cols = cols := by
  cases hf : findCol cols n with
  | none => exact applyFill_eq_of_none n d cols hf
  | some old =>
    rw [applyFill_eq_of_found n d cols old hf,
      if_neg (by rw [h old hf]; exact Bool.false_ne_true)]

lemma castIntCell_not_null (c c2 : Cell) (h : castIntCell c = .ok c2) :
    c2.isNone = false := by
  cases c with
  | none => cases h
  | some v =>
    cases v with
    | intV k => cases h; rfl
    | ratV q => cases h; rfl
    | strV s =>
      simp only [castIntCell] at h
      cases hs : s.toInt? with
      | none => rw [hs] at h; cases h
      | some k => rw [hs] at h; cases h; rfl

lemma castIntCol_no_null :
    ∀ (l l2 : List Cell), castIntCol l = .ok l2 → hasNull l2 = false := by
  intro l
  induction l with
  | nil =>
    intro l2 h
    cases h
    rfl
  | cons c rest ih =>
    intro l2 h
    unfold castIntCol at h
    cases hc : castIntCell c with
    | error e => rw [hc] at h; cases h
    | ok c2 =>
      rw [hc] at h
      cases hr : castIntCol rest with
      | error e => rw [hr] at h; cases h
      | ok r2 =>
        rw [hr] at h
        cases h
        rw [hasNull, List.any_cons]
        rw [show c2.isNone = false from castIntCell_not_null c c2 hc]
        rw [show (r2.any fun x => x.isNone) = false from ih r2 hr]
        rfl

lemma applyYearFix_eq_of_none (cols : List (String × List Cell))
    (hf : findCol cols (r"year") = none) : applyYearFix cols = .ok cols := by
  unfold applyYearFix
  rw [hf]

lemma applyYearFix_eq_of_found (cols : List (String × List Cell))
    (old : List Cell) (hf : findCol cols (r"year") = some old) :
    applyYearFix cols
      = if hasNull old then
          (match castIntCol (fillna (.intV 0) old) with
            | .ok cells2 => .ok (setCol cols (r"year") cells2)
            | .error e => .error e)
        else .ok cols := by
  unfold applyYearFix
  rw [hf]

lemma applyYearFix_self_clean (cols cols2 : List (String × List Cell))
    (h : applyYearFix cols = .ok cols2) :
    ∀ cells, findCol cols2 (r"year") = some cells → hasNull cells = false := by
  cases hf : findCol cols (r"year") with
  | none =>
    rw [applyYearFix_eq_of_none cols hf] at h
    cases h
    intro cells hc
    rw [hf] at hc
    cases hc
  | some old =>
    rw [applyYearFix_eq_of_found cols old hf] at h
    by_cases hn : hasNull old = true
    · rw [if_pos hn] at h
      cases hcast : castIntCol (fillna (.intV 0) old) with
      | error e => rw [hcast] at h; cases h
      | ok cells2 =>
        rw [hcast] at h
        cases h
        intro cells hc
        rw [findCol_setCol_self cols _ cells2 old hf] at hc
        cases hc
        exact castIntCol_no_null _ _ hcast
    · rw [if_neg hn] at h
      cases h
      intro cells hc
      rw [hf] at hc
      cases hc
      exact Bool.eq_false_iff.mpr hn

lemma applyYearFix_other (cols cols2 : List (String × List Cell)) (m : String)
    (hm : m ≠ (r"year")) (h : applyYearFix cols = .ok cols2) :
    findCol cols2 m = findCol cols m := by
  cases hf : findCol cols (r"year") with
  | none =>
    rw [applyYearFix_eq_of_none cols hf] at h
    cases h
    rfl
  | some old =>
    rw [applyYearFix_eq_of_found cols old hf] at h
    by_cases hn : hasNull old = true
    · rw [if_pos hn] at h
      cases hcast : castIntCol (fillna (.intV 0) old) with
      | error e => rw [hcast] at h; cases h
      | ok cells2 =>
        rw [hcast] at h
        cases h
        exact findCol_setCol_other cols _ m cells2 hm
    · rw [if_neg hn] at h
      cases h
      rfl

lemma applyYearFix_id (cols : List (String × List Cell))
    (h : ∀ cells, findCol cols (r"year") = some cells → hasNull cells = false) :
    applyYearFix cols = .ok cols := by
  cases hf : findCol cols (r"year") with
  | none => exact applyYearFix_eq_of_none cols hf
  | some old =>
    rw [applyYearFix_eq_of_found cols old hf,
      if_neg (by rw [h old hf]; exact Bool.false_ne_true)]

def NoNullsDF (df : DataFrame) : Prop :=
  ∀ c ∈ df.cols, hasNull c.2 = false

/-- C7: cleaning is idempotent — a second clean_data pass over any accepted
result returns it unchanged — and cleaning a frame with no nulls returns a
value equal to the input. -/
theorem C7_clean_idempotent (df out : DataFrame) :
    (clean_data (.frame df) = .ok out → clean_data (.frame out) = .ok out) ∧
    (NoNullsDF df → clean_data (.frame df) = .ok df) := by
  constructor
  · intro h
    simp only [clean_data] at h
    by_cases he : df.isEmptyDF = true
    · rw [if_pos he] at h
      cases h
      simp only [clean_data]
      rw [if_pos he]
    · rw [if_neg he] at h
      cases hy : applyYearFix (applyFill (r"genre") (.strV (r"Unknown"))
          (applyFill (r"title") (.strV (r"Unknown Title")) df.cols)) with
      | error e => rw [hy] at h; cases h
      | ok c3 =>
        rw [hy] at h
        cases h
        simp only [clean_data]
        by_cases hoe : (DataFrame.mk (applyFill (r"description") (.strV (r"")) c3)).isEmptyDF = true
        · rw [if_pos hoe]
        · rw [if_neg hoe]
          have htitle : ∀ cells,
              findCol (applyFill (r"description") (.strV (r"")) c3) (r"title") = some cells →
              hasNull cells = false := by
            intro cells hc
            rw [applyFill_other (r"description") (r"title") _ c3 (by decide)] at hc
            rw [applyYearFix_other _ c3 (r"title") (by decide) hy] at hc
            rw [applyFill_other (r"genre") (r"title") _ _ (by decide)] at hc
            exact applyFill_self_clean (r"title") _ df.cols cells hc
          have hgenre : ∀ cells,
              findCol (applyFill (r"description") (.strV (r"")) c3) (r"genre") = some cells →
              hasNull cells = false := by
            intro cells hc
            rw [applyFill_other (r"description") (r"genre") _ c3 (by decide)] at hc
            rw [applyYearFix_other _ c3 (r"genre") (by decide) hy] at hc
            exact applyFill_self_clean (r"genre") _ _ cells hc
          have hyear : ∀ cells,
              findCol (applyFill (r"description") (.strV (r"")) c3) (r"year") = some cells →
              hasNull cells = false := by
            intro cells hc
            rw [applyFill_other (r"description") (r"year") _ c3 (by decide)] at hc
            exact applyYearFix_self_clean _ c3 hy cells hc
          have hdesc : ∀ cells,
              findCol (applyFill (r"description") (.strV (r"")) c3) (r"description") = some cells →
              hasNull cells = false :=
            applyFill_self_clean (r"description") _ c3
          rw [applyFill_id (r"title") _ _ htitle, applyFill_id (r"genre") _ _ hgenre,
            applyYearFix_id _ hyear]
          exact congrArg (fun l => Except.ok (DataFrame.mk l))
            (applyFill_id (r"description") _ _ hdesc)
  · intro hnn
    have hfind : ∀ n cells, findCol df.cols n = some cells → hasNull cells = false := by
      intro n cells hc
      rcases findCol_mem df.cols n cells hc with ⟨p, hp, he⟩
      rw [← he]
      exact hnn p hp
    simp only [clean_data]
    by_cases he : df.isEmptyDF = true
    · rw [if_pos he]
    · rw [if_neg he]
      rw [applyFill_id (r"title") _ _ (hfind (r"title")),
        applyFill_id (r"genre") _ _ (hfind (r"genre")),
        applyYearFix_id _ (hfind (r"year"))]
      exact congrArg (fun l => Except.ok (DataFrame.mk l))
        (applyFill_id (r"description") _ _ (hfind (r"description")))

/-- A one-column frame whose genre column holds a null. -/
def genreNullFrame : DataFrame :=
  ⟨[((r"genre"), [none, some (.strV (r"Action"))])]⟩

/-- The cleaned version of genreNullFrame. -/
def genreFilledFrame : DataFrame :=
  ⟨[((r"genre"), [some (.strV (r"Unknown")), some (.strV (r"Action"))])]⟩

/-- A frame with no nulls, left unchanged by cleaning. -/
def yearOnlyFrame : DataFrame := ⟨[((r"year"), [some (.intV 2002)])]⟩

/-- Witness for C7: a concrete clean result is a fixed point of cleaning,
and a concrete null-free frame is returned unchanged. -/
lemma yearOnlyFrame_noNulls : NoNullsDF yearOnlyFrame := by
  intro c hc
  simp only [yearOnlyFrame, List.mem_singleton] at hc
  rw [hc]
  rfl

theorem C7_witness :
    clean_data (.frame genreNullFrame) = .ok genreFilledFrame ∧
    clean_data (.frame genreFilledFrame) = .ok genreFilledFrame ∧
    NoNullsDF yearOnlyFrame ∧
    clean_data (.frame yearOnlyFrame) = .ok yearOnlyFrame :=
  ⟨by rfl,
    (C7_clean_idempotent genreNullFrame genreFilledFrame).1 (by rfl),
    yearOnlyFrame_noNulls,
    (C7_clean_idempotent yearOnlyFrame yearOnlyFrame).2 yearOnlyFrame_noNulls⟩

/-! ### Claim C9: load_data_from_db is total, closes on every path -/

/-- C9: load_data_from_db never propagates an error: the manager connection
is closed on every exit path, a connect or query failure yields an empty
DataFrame instead of an exception, and on success the loaded item projection
is returned. -/
theorem C9_load_total (w : World) (m : Manager) :
    (load_data_from_db w m).2.connection = none ∧
    (w.canConnect = false → m.connection = none →
      (load_data_from_db w m).1 = DataFrame.mk []) ∧
    (w.queryOk = false → (load_data_from_db w m).1 = DataFrame.mk []) ∧
    (w.canConnect = true → w.queryOk = true →
      (load_data_from_db w m).1 = w.itemsDF) := by
  cases hcc : w.canConnect <;> cases hq : w.queryOk <;>
    cases hmc : m.connection <;>
    simp_all [load_data_from_db, get_cursor, connect, close]

/-- Witness for C9: a failing world yields an empty frame, a working world
yields the stored projection, and both leave the connection closed. -/
theorem C9_witness :
    (World.mk false false (DataFrame.mk [])).canConnect = false ∧
    (Manager.mk none 0).connection = none ∧
    (World.mk true true yearOnlyFrame).canConnect = true ∧
    (World.mk true true yearOnlyFrame).queryOk = true ∧
    (load_data_from_db (World.mk false false (DataFrame.mk [])) (Manager.mk none 0)).1
      = DataFrame.mk [] ∧
    (load_data_from_db (World.mk true true yearOnlyFrame) (Manager.mk none 0)).1
      = yearOnlyFrame ∧
    (load_data_from_db (World.mk true true yearOnlyFrame) (Manager.mk none 0)).2.connection
      = none :=
  ⟨rfl, rfl, rfl, rfl,
    (C9_load_total (World.mk false false (DataFrame.mk [])) (Manager.mk none 0)).2.1 rfl rfl,
    (C9_load_total (World.mk true true yearOnlyFrame) (Manager.mk none 0)).2.2.2 rfl rfl,
    (C9_load_total (World.mk true true yearOnlyFrame) (Manager.mk none 0)).1⟩

end RecEngine
